import Mathlib

/-!
Shallow embedding of the accessibility-element extraction and enrichment
pipeline (`AccessibilityService`, src/unnamed/part_001) together with proofs
about its specified properties.

Conventions of the embedding:
- JavaScript strings are `String`; machine numbers that only ever hold small
  element dimensions / scores are `Nat` / `Int`.
- A JavaScript expression that can throw is modelled as `Except String α`
  (the `String` is the error message); a value that can be `null`/`undefined`
  is `Option α`.
- In-page script execution (`chrome.scripting.executeScript`) is modelled by
  passing the outcome of the injected closure explicitly.
-/

/-- JS `s.includes(pat)` helper: does `pat` occur (contiguously) in `s`?
`leadEq pat cs` checks that `pat` is an initial segment of `cs`. -/
def leadEq : List Char → List Char → Bool
  | [], _ => true
  | _ :: _, [] => false
  | p :: ps, c :: cs => (p == c) && leadEq ps cs

/-- Scan for an occurrence of `pat` starting at any position of `cs`. -/
def subAt (pat : List Char) : List Char → Bool
  | [] => leadEq pat []
  | c :: cs => leadEq pat (c :: cs) || subAt pat cs

/-- JS `s.includes(pat)`. -/
def hasSub (s pat : String) : Bool := subAt pat.data s.data

/-- JS truthiness of a possibly-absent string: `undefined`/`null`/`""` are
falsy, any non-empty string is truthy. -/
def jsTruthyStr : Option String → Bool
  | none => false
  | some v => v != ""

/-- JS `s.toLowerCase()` (ASCII), defined over the character list so that it
reduces in the kernel. -/
def lowerStr (s : String) : String := String.mk (s.data.map Char.toLower)

/-- Drop leading whitespace characters. -/
def dropLeadWs : List Char → List Char
  | [] => []
  | c :: cs => if c.isWhitespace then dropLeadWs cs else c :: cs

/-- JS `s.trim()`, defined over the character list so that it reduces in
the kernel. -/
def trimStr (s : String) : String :=
  String.mk ((dropLeadWs (dropLeadWs s.data).reverse).reverse)

/-- `Math.max(0, Math.min(100, score))` — the clamp every importance scorer
ends with. -/
def clampScore (x : Int) : Int := max 0 (min 100 x)

/-! ## Importance scorers (in-page closures of the three extractors)

`calculateImportanceScore` for images (src/unnamed/part_001 lines 198-231),
links (lines 401-432) and buttons (lines 589-611). Class names arrive
already `.toString().toLowerCase()`-normalised in the source; the embedding
applies `String.toLower` at the same spot. -/

/-- Image importance scorer. `isImgEl` is `element instanceof
HTMLImageElement`; `width`/`height` are `naturalWidth || width` etc.;
`inFigure` is `element.closest("figure") != null`. -/
def calculateImportanceScoreImages (isMain : Bool) (isImgEl : Bool)
    (width height : Nat) (className : String) (inFigure : Bool) : Int :=
  let s0 : Int := if isMain then 50 else 0
  let s1 : Int :=
    if isImgEl then
      let a : Int :=
        if width > 300 && height > 200 then s0 + 30
        else if width > 150 && height > 100 then s0 + 15
        else s0
      if width < 50 || height < 50 then a - 30 else a
    else s0
  let cls := lowerStr className
  let s2 : Int :=
    if hasSub cls "hero" || hasSub cls "featured" || hasSub cls "main" ||
        hasSub cls "primary" then s1 + 25
    else s1
  let s3 : Int := if inFigure then s2 + 15 else s2
  clampScore s3

/-- Link importance scorer. `text` is `element.textContent?.trim() || ""`. -/
def calculateImportanceScoreLinks (isMain : Bool) (className : String)
    (text : String) : Int :=
  let s0 : Int := if isMain then 50 else 0
  let cls := lowerStr className
  let s1 : Int :=
    if hasSub cls "primary" || hasSub cls "cta" || hasSub cls "button" ||
        hasSub cls "btn" then s0 + 30
    else s0
  let s2 : Int :=
    if text.length > 3 && text.length < 100 then s1 + 20
    else if text.length ≤ 3 then s1 - 20
    else s1
  let lower := lowerStr text
  let s3 : Int :=
    if lower == "read more" || lower == "click here" || lower == "more" then
      s2 - 10
    else s2
  clampScore s3

/-- Button importance scorer. `hasAriaLabel` is `ariaLabel.length > 0 &&
ariaLabel !== buttonText`. -/
def calculateImportanceScoreButtons (isMain : Bool) (className : String)
    (hasAriaLabel : Bool) (text : String) : Int :=
  let s0 : Int := if isMain then 50 else 0
  let cls := lowerStr className
  let s1 : Int :=
    if hasSub cls "primary" || hasSub cls "cta" || hasSub cls "submit" then
      s0 + 30
    else s0
  let s2 : Int := if hasAriaLabel then s1 - 20 else s1
  let s3 : Int :=
    if text.length > 0 && text.length < 50 then s2 + 20
    else if text.length == 0 then s2 + 30
    else s2
  clampScore s3

theorem clampScore_range (x : Int) : 0 ≤ clampScore x ∧ clampScore x ≤ 100 := by
  unfold clampScore
  omega

/-- C5: For every extracted candidate of every kind (image, link, button) and
every combination of heuristic inputs, the computed importanceScore lies in
the closed interval [0,100]. -/
theorem importance_score_in_range :
    ∀ (isMain isImgEl : Bool) (w h : Nat) (cls : String) (fig : Bool)
      (lCls lText : String) (bCls : String) (bAria : Bool) (bText : String),
      (0 ≤ calculateImportanceScoreImages isMain isImgEl w h cls fig ∧
        calculateImportanceScoreImages isMain isImgEl w h cls fig ≤ 100) ∧
      (0 ≤ calculateImportanceScoreLinks isMain lCls lText ∧
        calculateImportanceScoreLinks isMain lCls lText ≤ 100) ∧
      (0 ≤ calculateImportanceScoreButtons isMain bCls bAria bText ∧
        calculateImportanceScoreButtons isMain bCls bAria bText ≤ 100) := by
  intro isMain isImgEl w h cls fig lCls lText bCls bAria bText
  refine ⟨?_, ?_, ?_⟩
  · exact clampScore_range _
  · exact clampScore_range _
  · exact clampScore_range _

/-! ## Selector builder (`generateSelector`)

Identical local function in the three in-page extraction closures
(src/unnamed/part_001 lines 126-152, 336-361, 502-527). The walk from the
element towards the root, stopping before `document.body` (the `while`
condition `current && current !== document.body`), is supplied as the list
`chain` (the element itself first, then its strict ancestors below body). -/

/-- One node of the selector walk: `tagName` and the `className` property
(`none` models a non-string `className`, e.g. `SVGAnimatedString`). -/
structure SelNode where
  tag : String
  cls : Option String
deriving DecidableEq, Repr

/-- JS `s.split(/\s+/)` restricted to inputs without leading/trailing
whitespace (the source always calls it on `trim()`ed input): the list of
maximal non-whitespace runs, and `[""]` for the empty string. -/
def runsAux : List Char → List Char → List String
  | [], [] => []
  | [], acc => [String.mk acc.reverse]
  | c :: rest, acc =>
    if c.isWhitespace then
      if acc.isEmpty then runsAux rest []
      else String.mk acc.reverse :: runsAux rest []
    else runsAux rest (c :: acc)

/-- JS `s.split(/\s+/)` for trimmed `s`. -/
def jsSplitWs (s : String) : List String :=
  match runsAux s.data [] with
  | [] => [""]
  | gs => gs

/-- One path segment: `tagName.toLowerCase()` plus up to the first two class
tokens (`className.trim().split(/\s+/).slice(0, 2)`), appended only when
`className` is a truthy string. -/
def segmentOf (n : SelNode) : String :=
  let base := lowerStr n.tag
  match n.cls with
  | some c =>
      if c != "" then
        let classes := (jsSplitWs (trimStr c)).take 2
        if classes.length > 0 then base ++ "." ++ String.intercalate "." classes
        else base
      else base
  | none => base

/-- The `while` loop of `generateSelector`: `path.unshift(selector)`, move to
the parent, `break` once `path.length >= 5`. -/
def selWalk : List SelNode → List String → List String
  | [], path => path
  | n :: rest, path =>
    let p2 := segmentOf n :: path
    if 5 ≤ p2.length then p2 else selWalk rest p2

/-- `generateSelector` — `"#" + id` when the element's `id` is truthy, else
the depth-capped path joined with `" > "`. -/
def generateSelector (id : String) (chain : List SelNode) : String :=
  if id != "" then "#" ++ id
  else String.intercalate " > " (selWalk chain [])

theorem selWalk_closed (chain : List SelNode) :
    ∀ acc : List String, acc.length < 5 →
      selWalk chain acc =
        ((chain.take (5 - acc.length)).map segmentOf).reverse ++ acc := by
  induction chain with
  | nil => intro acc _; simp [selWalk]
  | cons n rest ih =>
    intro acc hacc
    by_cases h5 : acc.length = 4
    · have : 5 ≤ (segmentOf n :: acc).length := by simp [h5]
      simp only [selWalk, if_pos this]
      have : 5 - acc.length = 1 := by omega
      simp [this]
    · have hlt : acc.length < 4 := by omega
      have hnot : ¬ 5 ≤ (segmentOf n :: acc).length := by
        simp only [List.length_cons]; omega
      simp only [selWalk, if_neg hnot]
      rw [ih (segmentOf n :: acc) (by simp; omega)]
      have h1 : 5 - acc.length = (4 - acc.length) + 1 := by omega
      have h2 : (segmentOf n :: acc).length = acc.length + 1 := by simp
      rw [h2, h1]
      show _ = ((List.take (4 - acc.length + 1) (n :: rest)).map segmentOf).reverse ++ acc
      rw [List.take_succ_cons]
      simp [Nat.succ_sub_succ]

/-- C6: The selector builder is deterministic — identical DOM state always
yields the identical selector string — and its output is characterized as
`"#" + id` when the node has a truthy id, else the depth-capped (5-segment)
path of tag-plus-first-two-class-token segments, root-most first. -/
theorem generateSelector_deterministic :
    ∀ (id₁ : String) (chain₁ : List SelNode) (id₂ : String)
      (chain₂ : List SelNode),
      id₁ = id₂ → chain₁ = chain₂ →
      generateSelector id₁ chain₁ = generateSelector id₂ chain₂ ∧
      (id₁ ≠ "" → generateSelector id₁ chain₁ = "#" ++ id₁) ∧
      (id₁ = "" →
        generateSelector id₁ chain₁ =
          String.intercalate " > "
            (((chain₁.take 5).map segmentOf).reverse)) := by
  intro id₁ chain₁ id₂ chain₂ hid hchain
  subst hid; subst hchain
  refine ⟨rfl, ?_, ?_⟩
  · intro h
    have : (id₁ != "") = true := by
      simp only [bne_iff_ne]; exact h
    simp [generateSelector, this]
  · intro h
    subst h
    simp only [generateSelector]
    rw [if_neg (by simp)]
    rw [selWalk_closed chain₁ [] (by simp)]
    simp

/-- C6 witness: a concrete run of `generateSelector`, discharging each
hypothesis of `generateSelector_deterministic` at explicit inputs. -/
theorem generateSelector_deterministic_witness :
    generateSelector "hero" [⟨"img", some "big pic"⟩] =
        generateSelector "hero" [⟨"img", some "big pic"⟩] ∧
      ("hero" ≠ "" → generateSelector "hero" [⟨"img", some "big pic"⟩] = "#" ++ "hero") ∧
      ("hero" = "" →
        generateSelector "hero" [⟨"img", some "big pic"⟩] =
          String.intercalate " > "
            ((([(⟨"img", some "big pic"⟩ : SelNode)].take 5).map segmentOf).reverse)) :=
  generateSelector_deterministic "hero" [⟨"img", some "big pic"⟩] "hero"
    [⟨"img", some "big pic"⟩] rfl rfl


/-! ## Region classifiers (`isInMainContent`)

Three local copies in the in-page closures: images (src/unnamed/part_001
lines 155-195), links (lines 363-399) and buttons (lines 551-587). The
ancestor walk (`current = element; ...; current = current.parentElement`)
is supplied as the list `chain` (element first, then ancestors to the root,
inclusive). The per-node conditions are inline in the source; they are
factored into `posIndicator` / `negIndicator*` here, verbatim otherwise.
The image copy's non-content check additionally tests for the class
substrings "ad" and "banner"; the link and button copies do not. -/

/-- One node of the ancestor walk: `tagName`, `className?.toString() || ""`,
and `id?.toLowerCase() || ""` (an absent id is `""`). -/
structure RegionNode where
  tag : String
  cls : String
  idAttr : String
deriving DecidableEq, Repr

/-- The main-content indicator condition, identical in all three copies. -/
def posIndicator (n : RegionNode) : Bool :=
  let tagName := lowerStr n.tag
  let className := lowerStr n.cls
  let id := lowerStr n.idAttr
  tagName == "main" || tagName == "article" ||
    hasSub className "main" || hasSub className "content" ||
    hasSub className "article" ||
    hasSub id "main" || hasSub id "content"

/-- The non-content indicator condition of the image-extraction copy
(includes the "ad" and "banner" class checks). -/
def negIndicatorImages (n : RegionNode) : Bool :=
  let tagName := lowerStr n.tag
  let className := lowerStr n.cls
  tagName == "nav" || tagName == "aside" || tagName == "footer" ||
    tagName == "header" ||
    hasSub className "sidebar" || hasSub className "menu" ||
    hasSub className "nav" || hasSub className "ad" ||
    hasSub className "banner"

/-- The non-content indicator condition of the link- and button-extraction
copies (no "ad"/"banner" class checks). -/
def negIndicatorLinksButtons (n : RegionNode) : Bool :=
  let tagName := lowerStr n.tag
  let className := lowerStr n.cls
  tagName == "nav" || tagName == "aside" || tagName == "footer" ||
    tagName == "header" ||
    hasSub className "sidebar" || hasSub className "menu" ||
    hasSub className "nav"

/-- `isInMainContent` from the image-extraction closure. -/
def isInMainContentImages : List RegionNode → Bool
  | [] => false
  | n :: rest =>
    if posIndicator n then true
    else if negIndicatorImages n then false
    else isInMainContentImages rest

/-- `isInMainContent` from the link-extraction closure. -/
def isInMainContentLinks : List RegionNode → Bool
  | [] => false
  | n :: rest =>
    if posIndicator n then true
    else if negIndicatorLinksButtons n then false
    else isInMainContentLinks rest

/-- `isInMainContent` from the button-extraction closure. -/
def isInMainContentButtons : List RegionNode → Bool
  | [] => false
  | n :: rest =>
    if posIndicator n then true
    else if negIndicatorLinksButtons n then false
    else isInMainContentButtons rest

/-- C7 counterexample: the claim is false at a concrete input. The walk
`[a, div.banner, main]` has an ancestor with class containing "banner"
below a `main` ancestor: the claim says each extractor's classifier returns
false on the first ancestor whose class contains "ad"/"banner", but the
link classifier returns true on this walk (only the image classifier
returns false). The walk `[div#article-hero]` exhausts ancestry with an id
containing "article": the claim says id containing "article" is a
main-content indicator, but every classifier returns false there. -/
theorem isInMainContent_claim_false :
    (hasSub "banner" "banner" = true ∧
      isInMainContentLinks
        [⟨"a", "", ""⟩, ⟨"div", "banner", ""⟩, ⟨"main", "", ""⟩] = true ∧
      isInMainContentImages
        [⟨"a", "", ""⟩, ⟨"div", "banner", ""⟩, ⟨"main", "", ""⟩] = false) ∧
    (hasSub "article-hero" "article" = true ∧
      isInMainContentImages [⟨"div", "", "article-hero"⟩] = false ∧
      isInMainContentLinks [⟨"div", "", "article-hero"⟩] = false ∧
      isInMainContentButtons [⟨"div", "", "article-hero"⟩] = false) := by
  decide

/-- Per-node verdict relative to a non-content indicator `neg`: `some true`
on a main-content indicator, `some false` on a non-content indicator,
`none` otherwise — positive check first, as in the source. -/
def regionVerdict (neg : RegionNode → Bool) (n : RegionNode) : Option Bool :=
  if posIndicator n then some true
  else if neg n then some false
  else none

/-- C7 (amended): each region classifier walks ancestors outward and the
nearest qualifying ancestor decides — true on the first ancestor matching a
main-content indicator (tag main/article, class containing
main/content/article, or id containing main/content — id containing
"article" is not an indicator), false on the first ancestor matching a
non-content indicator (tag nav/aside/footer/header, or class containing
sidebar/menu/nav, with "ad"/"banner" additionally only for image
extraction), and false when ancestry is exhausted; the link and button
classifiers coincide, and differ from the image classifier exactly in the
"ad"/"banner" class indicators. -/
theorem isInMainContent_first_match :
    ∀ chain : List RegionNode,
      isInMainContentImages chain =
        (chain.findSome? (regionVerdict negIndicatorImages)).getD false ∧
      isInMainContentLinks chain =
        (chain.findSome? (regionVerdict negIndicatorLinksButtons)).getD false ∧
      isInMainContentButtons chain = isInMainContentLinks chain := by
  intro chain
  induction chain with
  | nil =>
    simp [isInMainContentImages, isInMainContentLinks, isInMainContentButtons]
  | cons n rest ih =>
    obtain ⟨ih1, ih2, ih3⟩ := ih
    refine ⟨?_, ?_, ?_⟩
    · rw [isInMainContentImages, List.findSome?_cons]
      cases hp : posIndicator n with
      | true => simp [regionVerdict, hp]
      | false =>
        cases hn : negIndicatorImages n with
        | true => simp [regionVerdict, hp, hn]
        | false => simp [regionVerdict, hp, hn, ih1]
    · rw [isInMainContentLinks, List.findSome?_cons]
      cases hp : posIndicator n with
      | true => simp [regionVerdict, hp]
      | false =>
        cases hn : negIndicatorLinksButtons n with
        | true => simp [regionVerdict, hp, hn]
        | false => simp [regionVerdict, hp, hn, ih2]
    · rw [isInMainContentButtons, isInMainContentLinks]
      rw [ih3]

/-! ## DOM writers

`applyAltTextToDOM` (src/unnamed/part_001 lines 1229-1256),
`applyLinkTitleToDOM` (lines 1261-1284), `applyButtonAriaLabelToDOM`
(lines 1289-1312). Each injected script re-resolves the element by selector
(`document.querySelector`), modelled as `Option PageElem` (`none` = not
found, in which case the script throws, catches its own error and leaves
the page unchanged; an `executeScript` failure likewise changes nothing). -/

/-- The attribute state of the targeted element, plus its kind checks
(`instanceof HTMLImageElement` / `instanceof HTMLAnchorElement`). -/
structure PageElem where
  isImg : Bool
  isAnchor : Bool
  alt : String
  ariaLabel : Option String
  title : String
deriving DecidableEq, Repr

/-- JS `a || b` on strings (empty string is falsy). -/
def jsOrStr (a b : String) : String := if a != "" then a else b

/-- `applyAltTextToDOM`: image elements get `alt`; any other found element
gets `aria-label` via `` `AI Generated: ${altText}` || altText ``. -/
def applyAltTextToDOM (el : Option PageElem) (altText : String) :
    Option PageElem :=
  match el with
  | none => none
  | some e =>
    if e.isImg then some { e with alt := "AI Generated: " ++ altText }
    else
      some { e with
        ariaLabel := some (jsOrStr ("AI Generated: " ++ altText) altText) }

/-- `applyLinkTitleToDOM`: only anchor elements get `title`; a found
non-anchor element makes the script throw (caught), leaving it unchanged. -/
def applyLinkTitleToDOM (el : Option PageElem) (title : String) :
    Option PageElem :=
  match el with
  | none => none
  | some e =>
    if e.isAnchor then some { e with title := "AI Generated: " ++ title }
    else some e

/-- `applyButtonAriaLabelToDOM`: any found element gets `aria-label`. -/
def applyButtonAriaLabelToDOM (el : Option PageElem) (ariaLabel : String) :
    Option PageElem :=
  match el with
  | none => none
  | some e => some { e with ariaLabel := some ("AI Generated: " ++ ariaLabel) }

theorem prefixed_ne_empty (v : String) : ("AI Generated: " ++ v) ≠ "" := by
  intro h
  cases v with
  | mk l =>
    have h2 : String.mk ("AI Generated: ".data ++ l) = String.mk [] := h
    have h3 : "AI Generated: ".data ++ l = [] := by injection h2
    simp at h3

/-- C9: DOM writes are idempotent with respect to the generated value —
applying the same write twice with the same value yields the same final
attribute state as applying it once — and the written attribute carries
exactly one provenance prefix (`"AI Generated: " ++ value`, no stacking). -/
theorem dom_writes_idempotent :
    ∀ (el : Option PageElem) (v : String),
      applyAltTextToDOM (applyAltTextToDOM el v) v = applyAltTextToDOM el v ∧
      applyLinkTitleToDOM (applyLinkTitleToDOM el v) v =
        applyLinkTitleToDOM el v ∧
      applyButtonAriaLabelToDOM (applyButtonAriaLabelToDOM el v) v =
        applyButtonAriaLabelToDOM el v ∧
      (∀ e : PageElem, el = some e →
        (e.isImg = true →
          applyAltTextToDOM el v = some { e with alt := "AI Generated: " ++ v }) ∧
        (e.isImg = false →
          applyAltTextToDOM el v =
            some { e with ariaLabel := some ("AI Generated: " ++ v) }) ∧
        (e.isAnchor = true →
          applyLinkTitleToDOM el v =
            some { e with title := "AI Generated: " ++ v }) ∧
        applyButtonAriaLabelToDOM el v =
          some { e with ariaLabel := some ("AI Generated: " ++ v) }) := by
  intro el v
  have hjs : jsOrStr ("AI Generated: " ++ v) v = "AI Generated: " ++ v := by
    unfold jsOrStr
    rw [if_pos]
    simp only [bne_iff_ne, ne_eq]
    exact prefixed_ne_empty v
  cases el with
  | none => simp [applyAltTextToDOM, applyLinkTitleToDOM,
      applyButtonAriaLabelToDOM]
  | some e =>
    refine ⟨?_, ?_, ?_, ?_⟩
    · cases hi : e.isImg with
      | true => simp [applyAltTextToDOM, hi]
      | false => simp [applyAltTextToDOM, hi, hjs]
    · cases ha : e.isAnchor with
      | true => simp [applyLinkTitleToDOM, ha]
      | false => simp [applyLinkTitleToDOM, ha]
    · simp [applyButtonAriaLabelToDOM]
    · intro e' he
      cases he
      refine ⟨?_, ?_, ?_, ?_⟩
      · intro hi; simp [applyAltTextToDOM, hi]
      · intro hi; simp [applyAltTextToDOM, hi, hjs]
      · intro ha; simp [applyLinkTitleToDOM, ha]
      · simp [applyButtonAriaLabelToDOM]

/-- C9 witness: a concrete double-write on an image element and on a
non-image element, discharging the hypotheses of `dom_writes_idempotent`
at explicit inputs. -/
theorem dom_writes_idempotent_witness :
    applyAltTextToDOM
        (applyAltTextToDOM (some ⟨true, false, "", none, ""⟩) "A logo.")
        "A logo." =
      applyAltTextToDOM (some ⟨true, false, "", none, ""⟩) "A logo." ∧
    applyAltTextToDOM (some ⟨true, false, "", none, ""⟩) "A logo." =
      some ⟨true, false, "AI Generated: A logo.", none, ""⟩ ∧
    applyAltTextToDOM (some ⟨false, false, "", none, ""⟩) "A logo." =
      some ⟨false, false, "", some "AI Generated: A logo.", ""⟩ :=
  ⟨(dom_writes_idempotent (some ⟨true, false, "", none, ""⟩) "A logo.").1,
   ((dom_writes_idempotent (some ⟨true, false, "", none, ""⟩) "A logo.").2.2.2
      ⟨true, false, "", none, ""⟩ rfl).1 rfl,
   (((dom_writes_idempotent (some ⟨false, false, "", none, ""⟩) "A logo.").2.2.2
      ⟨false, false, "", none, ""⟩ rfl).2.1 rfl)⟩

/-! ## Extractor wrappers

`extractImages` / `extractLinks` / `extractButtons`
(src/unnamed/part_001 lines 75-302 / 307-480 / 485-659). Each wraps
`chrome.scripting.executeScript` in `try { ... return results[0]?.result
|| []; } catch { return []; }`. The injected closure's outcome is passed
explicitly: `.error e` models a rejected script execution, `.ok none` a
missing/null result, `.ok (some l)` a returned candidate list. -/

/-- Image candidate record (src/unnamed/part_001 lines 17-23). -/
structure BasicImageInfo where
  imageUrl : String
  currentAlt : String
  selector : String
  isMainContent : Bool
  importanceScore : Int
deriving DecidableEq, Repr

/-- Link candidate record (src/unnamed/part_001 lines 25-32). -/
structure BasicLinkInfo where
  linkUrl : String
  linkText : String
  currentTitle : String
  selector : String
  isMainContent : Bool
  importanceScore : Int
deriving DecidableEq, Repr

/-- Button candidate record (src/unnamed/part_001 lines 34-41). -/
structure BasicButtonInfo where
  buttonText : String
  currentAriaLabel : String
  selector : String
  parentContext : String
  isMainContent : Bool
  importanceScore : Int
deriving DecidableEq, Repr

/-- `extractImages`: total — the catch absorbs any script failure. -/
def extractImages (script : Except String (Option (List BasicImageInfo))) :
    List BasicImageInfo :=
  match script with
  | .error _ => []
  | .ok none => []
  | .ok (some images) => images

/-- `extractLinks`: total — the catch absorbs any script failure. -/
def extractLinks (script : Except String (Option (List BasicLinkInfo))) :
    List BasicLinkInfo :=
  match script with
  | .error _ => []
  | .ok none => []
  | .ok (some links) => links

/-- `extractButtons`: total — the catch absorbs any script failure. -/
def extractButtons (script : Except String (Option (List BasicButtonInfo))) :
    List BasicButtonInfo :=
  match script with
  | .error _ => []
  | .ok none => []
  | .ok (some buttons) => buttons

/-- C10: the three extractor operations never reject — each is a total
function into a candidate list; an injected-script failure or an absent
script result yields the empty list, and a returned list is passed
through. -/
theorem extractors_never_reject :
    ∀ (e : String) (imgs : List BasicImageInfo) (lnks : List BasicLinkInfo)
      (btns : List BasicButtonInfo),
      (extractImages (.error e) = [] ∧ extractImages (.ok none) = [] ∧
        extractImages (.ok (some imgs)) = imgs) ∧
      (extractLinks (.error e) = [] ∧ extractLinks (.ok none) = [] ∧
        extractLinks (.ok (some lnks)) = lnks) ∧
      (extractButtons (.error e) = [] ∧ extractButtons (.ok none) = [] ∧
        extractButtons (.ok (some btns)) = btns) := by
  intro e imgs lnks btns
  exact ⟨⟨rfl, rfl, rfl⟩, ⟨rfl, rfl, rfl⟩, ⟨rfl, rfl, rfl⟩⟩

/-! ## Image enrichment with fallback (`fetchImageAsBase64`,
`generateAltTextForImage`)

src/unnamed/part_001 lines 717-777 and 782-901. The vision gateway
(`createChatModel(...).invoke`) is modelled by the outcome of its first
call and of the one possible retry; the in-page base64 conversion by the
relevant page-side outcomes. Gateway calls, the fallback attempt and DOM
writes are recorded as an event trace. -/

/-- A thrown JS value: whether it is an `Error` instance, and its message. -/
structure JsErrorVal where
  isErrorInstance : Bool
  message : String
deriving DecidableEq, Repr

/-- The fetch-rejected classification (lines 831-835): `error instanceof
Error && (message.includes("400") || message.includes("BadRequestError") ||
message.includes("Error while downloading"))`. -/
def is400Error (e : JsErrorVal) : Bool :=
  e.isErrorInstance &&
    (hasSub e.message "400" || hasSub e.message "BadRequestError" ||
      hasSub e.message "Error while downloading")

/-- Outcome of the in-page `fetch(imageUrl)` branch: `ok` is
`response.ok`; `base64` is the `FileReader` data-URI outcome. -/
structure InPageFetch where
  ok : Bool
  base64 : Except String String
deriving Repr

/-- Page-side outcomes driving `fetchImageAsBase64`'s injected script. -/
structure PageImgEnv where
  /-- `element instanceof HTMLImageElement && element.complete` -/
  loadedImg : Bool
  /-- `canvas.getContext("2d")` returned a context -/
  canvasCtx : Bool
  /-- `canvas.toDataURL("image/jpeg", 0.9)` outcome -/
  jpeg : Except String String
  /-- `canvas.toDataURL("image/png")` outcome (tried when JPEG throws) -/
  png : Except String String
  /-- the in-page `fetch(imageUrl)` outcome -/
  fetchRes : Except String InPageFetch
  /-- `chrome.scripting.executeScript` itself rejected -/
  scriptFails : Bool
deriving Repr

/-- The injected closure of `fetchImageAsBase64`: canvas snapshot of the
loaded element (JPEG, else PNG), otherwise in-page fetch + base64-encode;
any error is caught and yields `null`. -/
def inPageBase64 (env : PageImgEnv) : Option String :=
  if env.loadedImg then
    if !env.canvasCtx then none
    else
      match env.jpeg with
      | .ok u => some u
      | .error _ =>
        match env.png with
        | .ok u => some u
        | .error _ => none
  else
    match env.fetchRes with
    | .error _ => none
    | .ok f =>
      if !f.ok then none
      else
        match f.base64 with
        | .ok b => some b
        | .error _ => none

/-- `fetchImageAsBase64`: wraps the injected script; a falsy result
(`null`/`""`) or a script failure yields `null`. -/
def fetchImageAsBase64 (env : PageImgEnv) : Option String :=
  if env.scriptFails then none
  else
    match inPageBase64 env with
    | some b64 => if b64 != "" then some b64 else none
    | none => none

/-- Per-image report entry (`{ imageUrl, currentAlt, generatedAlt? }`). -/
structure ImageAltResult where
  imageUrl : String
  currentAlt : String
  generatedAlt : Option String
deriving DecidableEq, Repr

/-- Observable events of one image enrichment. -/
inductive GenEvent
  | visionCall (imageRef : String)
  | fallbackFetch
  | domAltWrite (selector value : String)
deriving DecidableEq, Repr

/-- Outcomes of the vision gateway for one image: the first
`visionModel.invoke` and the one possible retry. -/
structure VisionGateway where
  firstResult : Except JsErrorVal String
  retryResult : Except JsErrorVal String

/-- `generateAltTextForImage`: direct URL first; on a fetch-rejected
failure, attempt `fetchImageAsBase64` and retry once with the data URI;
any other failure (or fallback exhaustion) is caught by the outer handler,
leaving `generatedAlt` absent. Returns the report entry and the event
trace. -/
def generateAltTextForImage (img : BasicImageInfo) (gw : VisionGateway)
    (page : PageImgEnv) : ImageAltResult × List GenEvent :=
  match gw.firstResult with
  | .ok txt =>
    let generatedAlt := trimStr txt
    ({ imageUrl := img.imageUrl, currentAlt := img.currentAlt,
        generatedAlt := some generatedAlt },
      [.visionCall img.imageUrl, .domAltWrite img.selector generatedAlt])
  | .error err =>
    if is400Error err then
      match fetchImageAsBase64 page with
      | some base64Image =>
        match gw.retryResult with
        | .ok txt2 =>
          let generatedAlt := trimStr txt2
          ({ imageUrl := img.imageUrl, currentAlt := img.currentAlt,
              generatedAlt := some generatedAlt },
            [.visionCall img.imageUrl, .fallbackFetch,
              .visionCall base64Image, .domAltWrite img.selector generatedAlt])
        | .error _ =>
          ({ imageUrl := img.imageUrl, currentAlt := img.currentAlt,
              generatedAlt := none },
            [.visionCall img.imageUrl, .fallbackFetch,
              .visionCall base64Image])
      | none =>
        ({ imageUrl := img.imageUrl, currentAlt := img.currentAlt,
            generatedAlt := none },
          [.visionCall img.imageUrl, .fallbackFetch])
    else
      ({ imageUrl := img.imageUrl, currentAlt := img.currentAlt,
          generatedAlt := none },
        [.visionCall img.imageUrl])

/-- The image references sent to the vision gateway, in call order. -/
def visionRefs : List GenEvent → List String
  | [] => []
  | GenEvent.visionCall r :: rest => r :: visionRefs rest
  | _ :: rest => visionRefs rest

/-- C1: when the first gateway call succeeds, exactly one gateway call is
made and no fallback is attempted; when it fails fetch-rejected, the
in-page base64 fallback is attempted, and if it yields a data URI the
gateway is retried exactly once with that URI — exactly two gateway calls,
the second with the fallback data URI. The fallback itself snapshots the
loaded element via canvas, else fetches and encodes in page context. -/
theorem image_fallback_protocol :
    ∀ (img : BasicImageInfo) (gw : VisionGateway) (page : PageImgEnv),
      (∀ t, gw.firstResult = .ok t →
        visionRefs (generateAltTextForImage img gw page).2 = [img.imageUrl] ∧
        GenEvent.fallbackFetch ∉ (generateAltTextForImage img gw page).2 ∧
        (generateAltTextForImage img gw page).1.generatedAlt = some (trimStr t)) ∧
      (∀ e, gw.firstResult = .error e → is400Error e = true →
        GenEvent.fallbackFetch ∈ (generateAltTextForImage img gw page).2) ∧
      (∀ e b64, gw.firstResult = .error e → is400Error e = true →
        fetchImageAsBase64 page = some b64 →
        visionRefs (generateAltTextForImage img gw page).2 =
          [img.imageUrl, b64]) ∧
      (∀ u, page.scriptFails = false → page.loadedImg = true →
        page.canvasCtx = true → page.jpeg = .ok u → u ≠ "" →
        fetchImageAsBase64 page = some u) ∧
      (∀ f b, page.scriptFails = false → page.loadedImg = false →
        page.fetchRes = .ok f → f.ok = true → f.base64 = .ok b → b ≠ "" →
        fetchImageAsBase64 page = some b) := by
  intro img gw page
  refine ⟨?_, ?_, ?_, ?_, ?_⟩
  · intro t ht
    simp [generateAltTextForImage, ht, visionRefs]
  · intro e he h4
    cases hf : fetchImageAsBase64 page with
    | none => simp [generateAltTextForImage, he, h4, hf]
    | some b =>
      cases hr : gw.retryResult with
      | ok t => simp [generateAltTextForImage, he, h4, hf, hr]
      | error e2 => simp [generateAltTextForImage, he, h4, hf, hr]
  · intro e b64 he h4 hf
    cases hr : gw.retryResult with
    | ok t => simp [generateAltTextForImage, he, h4, hf, hr, visionRefs]
    | error e2 => simp [generateAltTextForImage, he, h4, hf, hr, visionRefs]
  · intro u hs hl hc hj hu
    simp [fetchImageAsBase64, inPageBase64, hs, hl, hc, hj, hu]
  · intro f b hs hl hf hok hb hbne
    simp [fetchImageAsBase64, inPageBase64, hs, hl, hf, hok, hb, hbne]

/-- C1 witness: a first-try success makes exactly one gateway call with the
original URL; a fetch-rejected first try followed by a successful canvas
snapshot makes exactly the two calls, the second with the data URI. -/
theorem image_fallback_protocol_witness :
    visionRefs
        (generateAltTextForImage ⟨"https://x/a.jpg", "", "img.a", true, 80⟩
          ⟨.ok "A red bicycle.", .ok "unused"⟩
          ⟨true, true, .ok "data:image/jpeg;base64,AAA", .ok "p",
            .ok ⟨true, .ok "b"⟩, false⟩).2 = ["https://x/a.jpg"] ∧
    visionRefs
        (generateAltTextForImage ⟨"https://x/a.jpg", "", "img.a", true, 80⟩
          ⟨.error ⟨true, "400 BadRequestError: Error while downloading"⟩,
            .ok "A logo."⟩
          ⟨true, true, .ok "data:image/jpeg;base64,AAA", .ok "p",
            .ok ⟨true, .ok "b"⟩, false⟩).2 =
      ["https://x/a.jpg", "data:image/jpeg;base64,AAA"] ∧
    fetchImageAsBase64
        ⟨true, true, .ok "data:image/jpeg;base64,AAA", .ok "p",
          .ok ⟨true, .ok "b"⟩, false⟩ = some "data:image/jpeg;base64,AAA" ∧
    fetchImageAsBase64
        ⟨false, true, .ok "j", .ok "p",
          .ok ⟨true, .ok "data:;base64,BBB"⟩, false⟩ =
      some "data:;base64,BBB" :=
  ⟨((image_fallback_protocol ⟨"https://x/a.jpg", "", "img.a", true, 80⟩
      ⟨.ok "A red bicycle.", .ok "unused"⟩
      ⟨true, true, .ok "data:image/jpeg;base64,AAA", .ok "p",
        .ok ⟨true, .ok "b"⟩, false⟩).1 "A red bicycle." rfl).1,
   (image_fallback_protocol ⟨"https://x/a.jpg", "", "img.a", true, 80⟩
      ⟨.error ⟨true, "400 BadRequestError: Error while downloading"⟩,
        .ok "A logo."⟩
      ⟨true, true, .ok "data:image/jpeg;base64,AAA", .ok "p",
        .ok ⟨true, .ok "b"⟩, false⟩).2.2.1
     ⟨true, "400 BadRequestError: Error while downloading"⟩
     "data:image/jpeg;base64,AAA" rfl (by decide) rfl,
   (image_fallback_protocol ⟨"https://x/a.jpg", "", "img.a", true, 80⟩
      ⟨.ok "A red bicycle.", .ok "unused"⟩
      ⟨true, true, .ok "data:image/jpeg;base64,AAA", .ok "p",
        .ok ⟨true, .ok "b"⟩, false⟩).2.2.2.1 "data:image/jpeg;base64,AAA"
     rfl rfl rfl rfl (by decide),
   (image_fallback_protocol ⟨"https://x/a.jpg", "", "img.a", true, 80⟩
      ⟨.ok "A red bicycle.", .ok "unused"⟩
      ⟨false, true, .ok "j", .ok "p",
        .ok ⟨true, .ok "data:;base64,BBB"⟩, false⟩).2.2.2.2
     ⟨true, .ok "data:;base64,BBB"⟩ "data:;base64,BBB"
     rfl rfl rfl rfl rfl (by decide)⟩

/-! ## Link metadata resolver (`fetchLinkMetadata`,
`generateLinkDescription`)

src/unnamed/part_001 lines 929-969 and 974-1048. The HTML meta-tag regexes
of the source are embedded as explicit scanners with the same semantics:
case-insensitive literals, `\s+` runs, and a greedy nonempty capture up to
the closing delimiter, tried at every position of the document. -/

/-- Match a literal pattern case-insensitively at the head; return the rest
of the input on success. -/
def litMatchCI : List Char → List Char → Option (List Char)
  | [], cs => some cs
  | _ :: _, [] => none
  | p :: ps, c :: cs => if p.toLower == c.toLower then litMatchCI ps cs else none

/-- Consume a maximal run of whitespace. -/
def wsMany : List Char → List Char
  | [] => []
  | c :: cs => if c.isWhitespace then wsMany cs else c :: cs

/-- Regex `\s+`: at least one whitespace character, consumed greedily. -/
def wsPlus : List Char → Option (List Char)
  | [] => none
  | c :: cs => if c.isWhitespace then some (wsMany cs) else none

/-- Scan for the stop character, accumulating the capture. -/
def captureToAux (stop : Char) (acc : List Char) : List Char →
    Option (String × List Char)
  | [] => none
  | c :: cs =>
    if c == stop then some (String.mk acc.reverse, cs)
    else captureToAux stop (c :: acc) cs

/-- Regex `([^x]+)x`: a nonempty capture of non-stop characters followed by
the stop character (consumed). -/
def captureTo (stop : Char) (cs : List Char) : Option (String × List Char) :=
  match cs with
  | [] => none
  | c :: rest => if c == stop then none else captureToAux stop [c] rest

/-- The regex `<meta\s+(?:property="og:title"|name="twitter:title")\s+content="([^"]+)"`
(flag `i`) anchored at the current position. -/
def metaTitleAt (cs : List Char) : Option String := do
  let r1 ← litMatchCI "<meta".data cs
  let r2 ← wsPlus r1
  let r3 ← litMatchCI "property=\"og:title\"".data r2 <|>
    litMatchCI "name=\"twitter:title\"".data r2
  let r4 ← wsPlus r3
  let r5 ← litMatchCI "content=\"".data r4
  let (cap, _) ← captureTo '"' r5
  pure cap

/-- The regex `<title>([^<]+)<\/title>` (flag `i`) anchored at the current
position. -/
def titleTagAt (cs : List Char) : Option String := do
  let r1 ← litMatchCI "<title>".data cs
  let (cap, r2) ← captureTo '<' r1
  let _ ← litMatchCI "/title>".data r2
  pure cap

/-- The regex `<meta\s+(?:property="og:description"|name="(?:twitter:)?description")\s+content="([^"]+)"`
(flag `i`) anchored at the current position. -/
def metaDescAt (cs : List Char) : Option String := do
  let r1 ← litMatchCI "<meta".data cs
  let r2 ← wsPlus r1
  let r3 ← litMatchCI "property=\"og:description\"".data r2 <|>
    litMatchCI "name=\"twitter:description\"".data r2 <|>
    litMatchCI "name=\"description\"".data r2
  let r4 ← wsPlus r3
  let r5 ← litMatchCI "content=\"".data r4
  let (cap, _) ← captureTo '"' r5
  pure cap

/-- `String.prototype.match`: try the anchored pattern at every position. -/
def scanFor (f : List Char → Option String) : List Char → Option String
  | [] => f []
  | c :: cs =>
    match f (c :: cs) with
    | some r => some r
    | none => scanFor f cs

/-- The source's `titleMatch`: the meta-tag title regex, else the
`<title>` regex. -/
def matchTitle (html : String) : Option String :=
  match scanFor metaTitleAt html.data with
  | some t => some t
  | none => scanFor titleTagAt html.data

/-- The source's `descMatch`. -/
def matchDesc (html : String) : Option String := scanFor metaDescAt html.data

/-- `fetch(linkUrl, { method: "HEAD" })` outcome: `ok` is `response.ok`. -/
structure HeadResp where
  ok : Bool
deriving DecidableEq, Repr

/-- `fetch(linkUrl, { method: "GET" })` outcome: `ok` plus the body text. -/
structure GetResp where
  ok : Bool
  html : String
deriving DecidableEq, Repr

/-- Network outcomes for one link target (`.error` models a rejected
fetch). -/
structure LinkNet where
  headResult : Except String HeadResp
  getResult : Except String GetResp

/-- `{ title?, description? }` scraped from the target. -/
structure LinkMetadata where
  title : Option String
  description : Option String
deriving DecidableEq, Repr

/-- `fetchLinkMetadata`: HEAD first; only when HEAD is not ok, GET and
scrape the meta tags; a successful HEAD returns `null` (the source's
final `return null`), and any fetch failure is caught to `null`. -/
def fetchLinkMetadata (net : LinkNet) : Option LinkMetadata :=
  match net.headResult with
  | .error _ => none
  | .ok response =>
    if !response.ok then
      match net.getResult with
      | .error _ => none
      | .ok getResponse =>
        if !getResponse.ok then none
        else
          some { title := matchTitle getResponse.html,
                 description := matchDesc getResponse.html }
    else none

/-- Per-link report entry. -/
structure LinkDescResult where
  linkUrl : String
  linkText : String
  currentTitle : String
  generatedDescription : Option String
deriving DecidableEq, Repr

/-- Observable events of one link enrichment. -/
inductive LinkEvent
  | genCall
  | domTitleWrite (selector value : String)
deriving DecidableEq, Repr

/-- `generateLinkDescription`: metadata first (`metadata.description ||
metadata.title || ""`, used when non-empty, written back, no generation
call); otherwise one generation-gateway call whose failure is caught,
leaving `generatedDescription` absent. -/
def generateLinkDescription (link : BasicLinkInfo) (net : LinkNet)
    (gw : Except String String) : LinkDescResult × List LinkEvent :=
  let aiPath : LinkDescResult × List LinkEvent :=
    match gw with
    | .ok t =>
      let generatedDescription := trimStr t
      ({ linkUrl := link.linkUrl, linkText := link.linkText,
          currentTitle := link.currentTitle,
          generatedDescription := some generatedDescription },
        [.genCall, .domTitleWrite link.selector generatedDescription])
    | .error _ =>
      ({ linkUrl := link.linkUrl, linkText := link.linkText,
          currentTitle := link.currentTitle, generatedDescription := none },
        [])
  match fetchLinkMetadata net with
  | some metadata =>
    if jsTruthyStr metadata.title || jsTruthyStr metadata.description then
      let generatedDescription :=
        if jsTruthyStr metadata.description then metadata.description.getD ""
        else if jsTruthyStr metadata.title then metadata.title.getD ""
        else ""
      if generatedDescription.length > 0 then
        ({ linkUrl := link.linkUrl, linkText := link.linkText,
            currentTitle := link.currentTitle,
            generatedDescription := some generatedDescription },
          [.domTitleWrite link.selector generatedDescription])
      else aiPath
    else aiPath
  | none => aiPath

/-- C3 evaluation at the failing input: the link target's HTML carries
`<meta property="og:description" content="Buy shoes">` (the scraper does
find it — `matchDesc` returns "Buy shoes", and with a failing HEAD the
metadata tier works exactly as claimed, with no generation call); yet when
the HEAD request succeeds, `fetchLinkMetadata` returns `null` without ever
scraping, so the generation gateway is called and the metadata value is not
used. -/
theorem link_metadata_dead_on_head_ok :
    matchDesc "<html><head><meta property=\"og:description\" content=\"Buy shoes\"></head></html>" =
      some "Buy shoes" ∧
    fetchLinkMetadata
        ⟨.ok ⟨true⟩,
          .ok ⟨true, "<html><head><meta property=\"og:description\" content=\"Buy shoes\"></head></html>"⟩⟩ =
      none ∧
    (generateLinkDescription ⟨"https://shop/x", "Shoes", "", "a.x", true, 70⟩
        ⟨.ok ⟨true⟩,
          .ok ⟨true, "<html><head><meta property=\"og:description\" content=\"Buy shoes\"></head></html>"⟩⟩
        (.ok "Gateway text")).1.generatedDescription = some "Gateway text" ∧
    LinkEvent.genCall ∈
      (generateLinkDescription ⟨"https://shop/x", "Shoes", "", "a.x", true, 70⟩
        ⟨.ok ⟨true⟩,
          .ok ⟨true, "<html><head><meta property=\"og:description\" content=\"Buy shoes\"></head></html>"⟩⟩
        (.ok "Gateway text")).2 ∧
    fetchLinkMetadata
        ⟨.ok ⟨false⟩,
          .ok ⟨true, "<html><head><meta property=\"og:description\" content=\"Buy shoes\"></head></html>"⟩⟩ =
      some ⟨none, some "Buy shoes"⟩ ∧
    (generateLinkDescription ⟨"https://shop/x", "Shoes", "", "a.x", true, 70⟩
        ⟨.ok ⟨false⟩,
          .ok ⟨true, "<html><head><meta property=\"og:description\" content=\"Buy shoes\"></head></html>"⟩⟩
        (.ok "Gateway text")).1.generatedDescription = some "Buy shoes" ∧
    LinkEvent.genCall ∉
      (generateLinkDescription ⟨"https://shop/x", "Shoes", "", "a.x", true, 70⟩
        ⟨.ok ⟨false⟩,
          .ok ⟨true, "<html><head><meta property=\"og:description\" content=\"Buy shoes\"></head></html>"⟩⟩
        (.ok "Gateway text")).2 ∧
    matchTitle "<html><head><title>Shoe Shop</title></head></html>" =
      some "Shoe Shop" ∧
    fetchLinkMetadata ⟨.error "connection refused", .ok ⟨true, "<html></html>"⟩⟩ =
      none := by
  decide

/-! ## Button enrichment (`generateButtonDescription`)

src/unnamed/part_001 lines 1053-1101: always one generation call; failure
is caught, leaving `generatedDescription` absent. -/

/-- Per-button report entry. -/
structure ButtonDescResult where
  buttonText : String
  currentAriaLabel : String
  generatedDescription : Option String
deriving DecidableEq, Repr

/-- Observable events of one button enrichment. -/
inductive ButtonEvent
  | genCall
  | domAriaWrite (selector value : String)
deriving DecidableEq, Repr

/-- `generateButtonDescription`. -/
def generateButtonDescription (button : BasicButtonInfo)
    (gw : Except String String) : ButtonDescResult × List ButtonEvent :=
  match gw with
  | .ok t =>
    let generatedDescription := trimStr t
    ({ buttonText := button.buttonText,
        currentAriaLabel := button.currentAriaLabel,
        generatedDescription := some generatedDescription },
      [.genCall, .domAriaWrite button.selector generatedDescription])
  | .error _ =>
    ({ buttonText := button.buttonText,
        currentAriaLabel := button.currentAriaLabel,
        generatedDescription := none },
      [])

/-! ## Orchestrator (`analyzeAccessibility`)

src/unnamed/part_001 lines 1154-1224. External outcomes (content
extraction, the three injected extraction scripts, stored configuration,
every gateway call, per-element network) are supplied in an environment.
The orchestrator's result is paired with the trace of generation calls and
DOM attribute writes, in program order (the advisory progress callback is
not modelled).

The source line 1168 reads
`const images = (await this.extractImages(tabId)).slice(0, 10).reverse;`
— `.reverse` is accessed but not called, so the binding's value is the
`Array.prototype.reverse` function object (for every array), not the
reversed array. Lines 1171/1174 for links and buttons do call
`.reverse()`. -/

/-- A JS value that is either an array or a function reference. -/
inductive JsArrayOrFn (α : Type)
  | arr (l : List α)
  | fn
deriving DecidableEq, Repr

/-- Line 1168: `(await this.extractImages(tabId)).slice(0, 10).reverse` —
the slice is computed and discarded; the value of the property access is
the (array-independent) `reverse` function object. -/
def imagesForAnalysis (extracted : List BasicImageInfo) :
    JsArrayOrFn BasicImageInfo :=
  let _sliced := extracted.take 10
  JsArrayOrFn.fn

/-- Line 1171: `(await this.extractLinks(tabId)).slice(0, 10).reverse()`. -/
def linksForAnalysis (extracted : List BasicLinkInfo) : List BasicLinkInfo :=
  (extracted.take 10).reverse

/-- Line 1174: `(await this.extractButtons(tabId)).slice(0, 10).reverse()`. -/
def buttonsForAnalysis (extracted : List BasicButtonInfo) :
    List BasicButtonInfo :=
  (extracted.take 10).reverse

/-- `{ title, textContent }` from the readability collaborator. -/
structure PageArticle where
  title : String
  textContent : String
deriving DecidableEq, Repr

/-- The errors `analyzeAccessibility` can propagate. -/
inductive RunError
  | contentError (msg : String)
  | configError (msg : String)
  | summaryError (msg : String)
  | typeError (msg : String)
deriving DecidableEq, Repr

/-- The full report (`AccessibilityAnalysisResult`, lines 43-61). -/
structure AccessibilityAnalysisResult where
  pageSummary : String
  imageAnalysis : List ImageAltResult
  linkAnalysis : List LinkDescResult
  buttonAnalysis : List ButtonDescResult
deriving DecidableEq, Repr

/-- Orchestrator-level trace: generation-gateway calls and DOM attribute
writes. -/
inductive TraceEvent
  | generationCall
  | domWrite (selector value : String)
deriving DecidableEq, Repr

/-- Project image-enrichment events onto the orchestrator trace. -/
def genEventTrace : GenEvent → List TraceEvent
  | .visionCall _ => [.generationCall]
  | .fallbackFetch => []
  | .domAltWrite s v => [.domWrite s v]

/-- Project link-enrichment events onto the orchestrator trace. -/
def linkEventTrace : LinkEvent → List TraceEvent
  | .genCall => [.generationCall]
  | .domTitleWrite s v => [.domWrite s v]

/-- Project button-enrichment events onto the orchestrator trace. -/
def buttonEventTrace : ButtonEvent → List TraceEvent
  | .genCall => [.generationCall]
  | .domAriaWrite s v => [.domWrite s v]

/-- Concatenate the per-event traces of a batch. -/
def traceOfEvents {ε : Type} (f : ε → List TraceEvent) : List ε →
    List TraceEvent
  | [] => []
  | e :: rest => f e ++ traceOfEvents f rest

/-- All external outcomes of one `analyzeAccessibility` run. Per-element
outcomes are indexed by the element's position in its enrichment batch. -/
structure OrchestratorEnv where
  /-- `extractPageContent` outcome (readability failure or thrown
  `"Failed to extract page content"` both land in `.error`) -/
  articleResult : Except String PageArticle
  imagesScript : Except String (Option (List BasicImageInfo))
  linksScript : Except String (Option (List BasicLinkInfo))
  buttonsScript : Except String (Option (List BasicButtonInfo))
  /-- `providerConfig?.apiKey` (`none` = provider or key missing) -/
  apiKey : Option String
  /-- `modelConfig` present -/
  modelConfigPresent : Bool
  /-- the page-summary gateway call -/
  summaryResult : Except String String
  imageGateways : Nat → VisionGateway
  imagePages : Nat → PageImgEnv
  linkNets : Nat → LinkNet
  linkGateways : Nat → Except String String
  buttonGateways : Nat → Except String String

/-- `getLLMConfiguration` (lines 675-688): throws when the API key is
falsy, then when the model config is missing. -/
def getLLMConfiguration (env : OrchestratorEnv) : Except RunError Unit :=
  if !(jsTruthyStr env.apiKey) then
    .error (.configError "OpenAI API key not configured")
  else if !env.modelConfigPresent then
    .error (.configError "Navigator model configuration not found")
  else .ok ()

/-- `analyzeImages` (lines 906-924): `images.map(...)` — a function value
has no `map`, so the call throws a `TypeError`; an array fans out per
image. -/
def analyzeImages (images : JsArrayOrFn BasicImageInfo)
    (gws : Nat → VisionGateway) (pages : Nat → PageImgEnv) :
    Except RunError (List ImageAltResult × List TraceEvent) :=
  match images with
  | .fn => .error (.typeError "images.map is not a function")
  | .arr l =>
    let pairs := l.enum.map fun p => generateAltTextForImage p.2 (gws p.1) (pages p.1)
    .ok (pairs.map Prod.fst, traceOfEvents genEventTrace (pairs.map Prod.snd).flatten)

/-- `analyzeAccessibility` (lines 1154-1224): content extraction, the three
demo-mode-truncated extractions, configuration, page summary, then the
three enrichment phases; the outer catch rethrows every error. -/
def analyzeAccessibility (env : OrchestratorEnv) :
    Except RunError AccessibilityAnalysisResult × List TraceEvent :=
  match env.articleResult with
  | .error e => (.error (.contentError e), [])
  | .ok _article =>
    let images := imagesForAnalysis (extractImages env.imagesScript)
    let links := linksForAnalysis (extractLinks env.linksScript)
    let buttons := buttonsForAnalysis (extractButtons env.buttonsScript)
    match getLLMConfiguration env with
    | .error e => (.error e, [])
    | .ok _ =>
      match env.summaryResult with
      | .error e => (.error (.summaryError e), [.generationCall])
      | .ok pageSummary =>
        match analyzeImages images env.imageGateways env.imagePages with
        | .error e => (.error e, [.generationCall])
        | .ok (imageAnalysis, imgTrace) =>
          let linkPairs := links.enum.map fun p =>
            generateLinkDescription p.2 (env.linkNets p.1) (env.linkGateways p.1)
          let buttonPairs := buttons.enum.map fun p =>
            generateButtonDescription p.2 (env.buttonGateways p.1)
          (.ok ⟨pageSummary, imageAnalysis, linkPairs.map Prod.fst,
              buttonPairs.map Prod.fst⟩,
            [.generationCall] ++ imgTrace ++
              traceOfEvents linkEventTrace (linkPairs.map Prod.snd).flatten ++
              traceOfEvents buttonEventTrace (buttonPairs.map Prod.snd).flatten)

/-- A run in which every external collaborator succeeds: content extraction
ok, all three extraction scripts ok, configuration present, and every
gateway call succeeds. -/
def cleanRunEnv : OrchestratorEnv where
  articleResult := .ok ⟨"T", "Body text"⟩
  imagesScript := .ok (some [⟨"https://x/a.jpg", "", "img.a", true, 80⟩])
  linksScript := .ok (some [⟨"https://x/l", "L", "", "a.l", true, 70⟩])
  buttonsScript := .ok (some [⟨"Go", "", "button.go", "ctx", true, 70⟩])
  apiKey := some "sk-key"
  modelConfigPresent := true
  summaryResult := .ok "A summary."
  imageGateways := fun _ => ⟨.ok "An image.", .ok "An image."⟩
  imagePages := fun _ => ⟨true, true, .ok "data:image/jpeg;base64,AAA",
    .ok "data:image/png;base64,AAA", .ok ⟨true, .ok "data:;base64,AAA"⟩, false⟩
  linkNets := fun _ => ⟨.ok ⟨false⟩, .ok ⟨true, ""⟩⟩
  linkGateways := fun _ => .ok "A link."
  buttonGateways := fun _ => .ok "A button."

/-- C2 evaluation at the failing input: with every collaborator succeeding
(no fatal-to-run condition), the run still does not return a report — it
throws a `TypeError`, because line 1168's `.slice(0, 10).reverse` (missing
call; contrast `.reverse()` on lines 1171/1174) binds the images list to a
function value, and `images.map` then fails inside `analyzeImages`. -/
theorem analyzeAccessibility_throws_on_clean_run :
    (analyzeAccessibility cleanRunEnv).1 =
      .error (.typeError "images.map is not a function") ∧
    (∀ (img : BasicImageInfo) (page : PageImgEnv) (e : JsErrorVal)
        (r : Except JsErrorVal String),
      is400Error e = false →
      (generateAltTextForImage img ⟨.error e, r⟩ page).1.generatedAlt = none) ∧
    (∀ (link : BasicLinkInfo) (net : LinkNet) (e : String),
      fetchLinkMetadata net = none →
      (generateLinkDescription link net (.error e)).1.generatedDescription =
        none) ∧
    (∀ (btn : BasicButtonInfo) (e : String),
      (generateButtonDescription btn (.error e)).1.generatedDescription =
        none) := by
  refine ⟨rfl, ?_, ?_, ?_⟩
  · intro img page e r h4
    simp [generateAltTextForImage, h4]
  · intro link net e hmd
    simp [generateLinkDescription, hmd]
  · intro btn e
    simp [generateButtonDescription]

/-- C2 witness: the clean-run evaluation is closed; the per-element
absorption clauses are discharged at a non-fetch-rejected gateway error, a
metadata-less link whose gateway call fails, and a failing button gateway
call. -/
theorem analyzeAccessibility_throws_on_clean_run_witness :
    (generateAltTextForImage ⟨"https://x/a.jpg", "", "img.a", true, 80⟩
        ⟨.error ⟨true, "503 Service Unavailable"⟩, .ok "unused"⟩
        ⟨true, true, .ok "d", .ok "p", .ok ⟨true, .ok "b"⟩,
          false⟩).1.generatedAlt = none ∧
    (generateLinkDescription ⟨"https://x/l", "L", "", "a.l", true, 70⟩
        ⟨.error "net down", .error "net down"⟩
        (.error "model error")).1.generatedDescription = none ∧
    (generateButtonDescription ⟨"Go", "", "button.go", "ctx", true, 70⟩
        (.error "model error")).1.generatedDescription = none :=
  ⟨analyzeAccessibility_throws_on_clean_run.2.1
      ⟨"https://x/a.jpg", "", "img.a", true, 80⟩
      ⟨true, true, .ok "d", .ok "p", .ok ⟨true, .ok "b"⟩, false⟩
      ⟨true, "503 Service Unavailable"⟩ (.ok "unused") (by decide),
   analyzeAccessibility_throws_on_clean_run.2.2.1
      ⟨"https://x/l", "L", "", "a.l", true, 70⟩
      ⟨.error "net down", .error "net down"⟩ "model error" rfl,
   analyzeAccessibility_throws_on_clean_run.2.2.2
      ⟨"Go", "", "button.go", "ctx", true, 70⟩ "model error"⟩

/-- C4 evaluation: links and buttons are truncated to their top 10 and
order-reversed as claimed, but the images binding is never an array at
all — `.slice(0, 10).reverse` (not called) evaluates to the `reverse`
function object — so image enrichment does not process the reversed
top-10 image prefix (it throws instead; see the C2 analysis). -/
theorem demo_truncation_not_applied_to_images :
    ∀ (imgs : List BasicImageInfo) (lnks : List BasicLinkInfo)
      (btns : List BasicButtonInfo),
      imagesForAnalysis imgs = JsArrayOrFn.fn ∧
      (∀ l : List BasicImageInfo, imagesForAnalysis imgs ≠ JsArrayOrFn.arr l) ∧
      linksForAnalysis lnks = (lnks.take 10).reverse ∧
      buttonsForAnalysis btns = (btns.take 10).reverse := by
  intro imgs lnks btns
  refine ⟨rfl, ?_, rfl, rfl⟩
  intro l h
  exact JsArrayOrFn.noConfusion h

/-- C4 witness: the truncate-and-reverse evaluation at concrete one-element
candidate lists. -/
theorem demo_truncation_not_applied_to_images_witness :
    imagesForAnalysis [⟨"https://x/a.jpg", "", "img.a", true, 80⟩] =
        JsArrayOrFn.fn ∧
      (∀ l : List BasicImageInfo,
        imagesForAnalysis [⟨"https://x/a.jpg", "", "img.a", true, 80⟩] ≠
          JsArrayOrFn.arr l) ∧
      linksForAnalysis [⟨"https://x/l", "L", "", "a.l", true, 70⟩] =
        ([(⟨"https://x/l", "L", "", "a.l", true, 70⟩ : BasicLinkInfo)].take
            10).reverse ∧
      buttonsForAnalysis [⟨"Go", "", "button.go", "ctx", true, 70⟩] =
        ([(⟨"Go", "", "button.go", "ctx", true, 70⟩ :
            BasicButtonInfo)].take 10).reverse :=
  demo_truncation_not_applied_to_images
    [⟨"https://x/a.jpg", "", "img.a", true, 80⟩]
    [⟨"https://x/l", "L", "", "a.l", true, 70⟩]
    [⟨"Go", "", "button.go", "ctx", true, 70⟩]

/-- C8: when the generation configuration is absent (API key falsy, or
model config missing), `analyzeAccessibility` rejects with the
corresponding configuration error after content and element extraction,
and the trace is empty — no generation call and no DOM attribute write has
occurred. -/
theorem config_missing_rejects_before_generation :
    ∀ (env : OrchestratorEnv) (a : PageArticle),
      env.articleResult = .ok a →
      (jsTruthyStr env.apiKey = false →
        analyzeAccessibility env =
          (.error (.configError "OpenAI API key not configured"), [])) ∧
      (jsTruthyStr env.apiKey = true → env.modelConfigPresent = false →
        analyzeAccessibility env =
          (.error (.configError "Navigator model configuration not found"),
            [])) := by
  intro env a ha
  constructor
  · intro hk
    simp [analyzeAccessibility, ha, getLLMConfiguration, hk]
  · intro hk hm
    simp [analyzeAccessibility, ha, getLLMConfiguration, hk, hm]

/-- C8 witness: a concrete run with no API key rejects with the
configuration error and an empty trace. -/
theorem config_missing_rejects_before_generation_witness :
    analyzeAccessibility
        { cleanRunEnv with apiKey := none } =
      (.error (.configError "OpenAI API key not configured"), []) :=
  (config_missing_rejects_before_generation
    { cleanRunEnv with apiKey := none } ⟨"T", "Body text"⟩ rfl).1 rfl
